import Mathlib

/-
Verification of the client-side sync logic of container-todo (src/static/app.js).

The client is a browser script; its interesting behaviour is pure given the
outcomes of its host interactions, so the embedding passes those outcomes in
explicitly:
  * HTTP responses are values of HttpResponse; JSON.parse restricted to the
    bodies at hand is an explicit function parameter parse : String -> Option Json
    (none models a parse exception).
  * Date parsing (new Date) and toISOString are a DateEnv parameter.
  * DOM / audio / notification side effects are reified as an Action trace.
  * The in-memory cache (state.users, state.tasks) is an explicit ClientState
    threaded through the operations.
-/

set_option maxHeartbeats 1000000

namespace ContainerTodo

/-- JSON values as produced by a successful JSON.parse of a response or event
body. The undefined value (absent property) is represented at use sites by
Option, not by a constructor, mirroring property lookup in JS. -/
inductive Json where
  | null
  | bool (b : Bool)
  | num (n : Int)
  | str (s : String)
  | arr (elems : List Json)
  | obj (fields : List (String × Json))

/-- Property access v.k on a parsed JSON value: some only when the value is an
object carrying the key; on primitives, booleans and arrays the access yields
undefined (none). Access on null throws in JS and is handled at each call
site of this function. -/
def jsField (j : Json) (k : String) : Option Json :=
  match j with
  | .obj fields => fields.lookup k
  | _ => none

/-- JS truthiness of a parsed JSON value. -/
def jsTruthy : Json → Bool
  | .null => false
  | .bool b => b
  | .num n => n != 0
  | .str s => s != ""
  | .arr _ => true
  | .obj _ => true

/-- JS ToString of a parsed JSON value, as applied by new Error(err) and by
textContent assignment: strings pass through, numbers and booleans print,
null prints as the word null, arrays join their elements with commas (so the
empty array stringifies to the empty string), plain objects print as the
standard object tag. -/
def jsToString : Json → String
  | .null => "null"
  | .bool true => "true"
  | .bool false => "false"
  | .num n => toString n
  | .str s => s
  | .arr elems => String.intercalate "," (elems.attach.map fun e => jsToString e.1)
  | .obj _ => "[object Object]"
decreasing_by
  simp_wf
  have h := List.sizeOf_lt_of_mem e.2
  simp [Json.arr.sizeOf_spec]
  omega

/-- Message selection of the api helper for a non-2xx response
(src/static/app.js lines 39-48). parsed is the outcome of res.json(): none
when the body is not valid JSON, in which case the rejection is caught and
the generic status message synthesized. A JSON null body also falls to the
generic message because reading body.error off null throws and is caught by
the same handler. A parsed body whose error field is truthy supplies the
message via ToString; otherwise the initial fallback text stands. -/
def apiErrorMessage (status : Nat) (parsed : Option Json) : String :=
  match parsed with
  | none => toString status ++ " error"
  | some Json.null => toString status ++ " error"
  | some body =>
    match jsField body "error" with
    | some v => if jsTruthy v then jsToString v else "Something went wrong."
    | none => "Something went wrong."

/-- An HTTP response as the api helper observes it: the ok flag (2xx), the
status code, and the body text. -/
structure HttpResponse where
  ok : Bool
  status : Nat
  body : String

/-- The api fetch helper (src/static/app.js lines 33-52), modelled over the
response it receives. A non-2xx response rejects with the message chosen by
apiErrorMessage. A 2xx response with empty body text resolves to the empty
object; a 2xx response whose nonempty text fails to parse rejects with the
host SyntaxError, whose engine-specific message is abstracted by a fixed
placeholder that no theorem inspects. -/
def api (parse : String → Option Json) (res : HttpResponse) : Except String Json :=
  if res.ok then
    if res.body = "" then .ok (Json.obj [])
    else
      match parse res.body with
      | some j => .ok j
      | none => .error "SyntaxError"
  else .error (apiErrorMessage res.status (parse res.body))

/-- A cached user record as rendered by the client (fields the script reads). -/
structure UserRec where
  id : Nat
  username : String
deriving DecidableEq

/-- A cached task record as rendered by the client (fields the script reads). -/
structure TaskRec where
  id : Nat
  title : String
  completed : Bool
  assignedUserId : Option Nat
  dueDate : Option String
deriving DecidableEq

/-- The client cache: the users and tasks slices of the module-level state
object (src/static/app.js lines 2-7). -/
structure ClientState where
  users : List UserRec
  tasks : List TaskRec
deriving DecidableEq

/-- Observable side effects of the client, reified as trace entries: an HTTP
request being issued, a call to refreshAll, a toast element appended, an
oscillator chime at a frequency, a platform notification raised, the
new-task inputs cleared, the event source closed, and a reconnect timer set. -/
inductive Action where
  | request (method : String) (path : String) (payload : Option Json)
  | refreshCall
  | toastNote (message : String) (tone : String)
  | chime (freq : Nat)
  | notify (title : String) (body : String)
  | clearNewTaskInputs
  | closeSource
  | scheduleReconnect (delayMs : Nat)

def isRequestAct : Action → Bool
  | .request _ _ _ => true
  | _ => false

def isRefreshCallAct : Action → Bool
  | .refreshCall => true
  | _ => false

def isToastAct : Action → Bool
  | .toastNote _ _ => true
  | _ => false

def isChimeAct : Action → Bool
  | .chime _ => true
  | _ => false

def isNotifyAct : Action → Bool
  | .notify _ _ => true
  | _ => false

def isScheduleAct : Action → Bool
  | .scheduleReconnect _ => true
  | _ => false

/-- toast applied to a string message (src/static/app.js lines 54-62): a falsy
message - for strings, the empty one - shows nothing; otherwise one toast
element is appended. -/
def toastActs (message tone : String) : List Action :=
  if message = "" then [] else [Action.toastNote message tone]

/-- toast applied to a raw JS value: the push handler passes data.message
unconverted (undefined modelled as none). Falsy values show nothing; truthy
values render through textContent assignment, i.e. ToString. -/
def toastJs (v : Option Json) (tone : String) : List Action :=
  match v with
  | none => []
  | some x => if jsTruthy x then [Action.toastNote (jsToString x) tone] else []

/-- The frequency table of chime (src/static/app.js lines 74-82) including the
fallback for unknown categories: tones of created, deleted, assigned,
completed, reopened, info, else 720. -/
def toneFor : String → Nat
  | "created" => 880
  | "deleted" => 420
  | "assigned" => 660
  | "completed" => 560
  | "reopened" => 520
  | "info" => 760
  | _ => 720

/-- chime invoked with data.type from a parsed push event: a non-string or
absent category indexes nothing in the tone table and falls back to 720. -/
def chimeFreqOf : Option Json → Nat
  | some (Json.str s) => toneFor s
  | _ => 720

/-- Browser facts maybeNotify consults (src/static/app.js lines 135-146):
whether the Notification API exists, its permission string, and whether the
document is hidden. -/
structure BrowserEnv where
  hasNotification : Bool
  permission : String
  documentHidden : Bool

/-- maybeNotify (src/static/app.js lines 135-146) applied to event.message of
the parsed push event (undefined as none): raises one platform notification
only when the API exists, permission is granted and the document is hidden;
the body falls back to a fixed text when the message is absent or falsy. -/
def maybeNotify (env : BrowserEnv) (msg : Option Json) : List Action :=
  if env.hasNotification = false then []
  else if env.permission != "granted" then []
  else if env.documentHidden = false then []
  else
    let body :=
      match msg with
      | some v => if jsTruthy v then jsToString v else "Task activity"
      | none => "Task activity"
    [Action.notify "Todo update" body]

/-- The outcomes of the two refetches a refreshAll performs: the users request
(api GET /api/users followed by extracting the users list) and the tasks
request, each either the fetched collection or a rejection message. -/
structure FetchResults where
  usersRes : Except String (List UserRec)
  tasksRes : Except String (List TaskRec)

/-- The cache after refreshAll ran both fetches (src/static/app.js lines
377-392): fetchUsers assigns state.users exactly when its own request
succeeded, and fetchTasks assigns state.tasks exactly when its own request
succeeded - Promise.all does not undo the assignment of the fetch that
succeeded when the other one failed. -/
def applyRefresh (st : ClientState) (r : FetchResults) : ClientState :=
  { users := match r.usersRes with
      | .ok us => us
      | .error _ => st.users,
    tasks := match r.tasksRes with
      | .ok ts => ts
      | .error _ => st.tasks }

/-- Whether the awaited Promise.all of refreshAll resolves: it rejects as soon
as either fetch rejects, carrying that fetch's message. -/
def refreshOutcome (r : FetchResults) : Except String Unit :=
  match r.usersRes with
  | .error e => .error e
  | .ok _ =>
    match r.tasksRes with
    | .error e => .error e
    | .ok _ => .ok ()

/-- refreshAll (src/static/app.js lines 390-392): runs fetchUsers and
fetchTasks concurrently, returning the resulting cache, the trace entry for
the call, and whether the awaited refresh as a whole resolved. -/
def refreshAll (st : ClientState) (r : FetchResults) :
    ClientState × List Action × Except String Unit :=
  (applyRefresh st r, [Action.refreshCall], refreshOutcome r)

/-- Host date facilities used by combineDateTime: new Date over a string
(none when the result is an invalid date, i.e. getTime is NaN), and
toISOString on the resulting instant (modelled as epoch milliseconds). -/
structure DateEnv where
  parse : String → Option Int
  toISO : Int → String

/-- combineDateTime (src/static/app.js lines 208-214): an empty date string
resolves to null; an empty time string defaults to midnight 00:00; the two
fields are joined with a T and handed to new Date; an invalid date resolves
to null, a valid one to its toISOString. -/
def combineDateTime (env : DateEnv) (dateStr timeStr : String) : Option String :=
  if dateStr = "" then none
  else
    let time := if timeStr = "" then "00:00" else timeStr
    match env.parse (dateStr ++ "T" ++ time) with
    | none => none
    | some ms => some (env.toISO ms)

/-- JSON.stringify of the due_date property value: null when no due date. -/
def jsonOfDue : Option String → Json
  | none => Json.null
  | some s => Json.str s

/-- The WhiteSpace and LineTerminator code points String.prototype.trim
strips: tab, line feed, vertical tab, form feed, carriage return, space,
no-break space, ogham space mark, the en-quad..hair-space range, line and
paragraph separators, narrow no-break space, medium mathematical space,
ideographic space, and the byte order mark. -/
def jsWhitespace (c : Char) : Bool :=
  c == ' ' || c == '\t' || c == '\n' || c == '\r' || c == '\x0b' || c == '\x0c' ||
  c == '\u00a0' || c == '\u1680' ||
  (decide (0x2000 ≤ c.toNat) && decide (c.toNat ≤ 0x200a)) ||
  c == '\u2028' || c == '\u2029' || c == '\u202f' || c == '\u205f' ||
  c == '\u3000' || c == '\ufeff'

/-- String.prototype.trim as applied to the title input: strip leading and
trailing JS whitespace. -/
def jsTrim (s : String) : String :=
  String.mk (((s.data.dropWhile jsWhitespace).reverse.dropWhile jsWhitespace).reverse)

def taskPath (id : Nat) : String := "/api/tasks/" ++ toString id

def userPath (id : Nat) : String := "/api/users/" ++ toString id

/-- The PATCH request toggleComplete issues (src/static/app.js lines 418-421). -/
def togglePatchReq (id : Nat) (done : Bool) : Action :=
  Action.request "PATCH" (taskPath id) (some (Json.obj [("completed", Json.bool done)]))

/-- The PATCH request updateAssignee issues (src/static/app.js lines 429-434):
an empty select value is sent as null (unassigned). -/
def assigneePatchReq (id : Nat) (assigned : String) : Action :=
  Action.request "PATCH" (taskPath id)
    (some (Json.obj [("assigned_user_id",
      if assigned = "" then Json.null else Json.str assigned)]))

/-- The PATCH request updateDueDate issues (src/static/app.js lines 442-447). -/
def duePatchReq (env : DateEnv) (id : Nat) (dueInput timeInput : String) : Action :=
  Action.request "PATCH" (taskPath id)
    (some (Json.obj [("due_date", jsonOfDue (combineDateTime env dueInput timeInput))]))

/-- The POST request createTask issues (src/static/app.js lines 397-405),
given the already-trimmed nonempty title. -/
def createPostReq (env : DateEnv) (title assigneeVal dueDateVal dueTimeVal : String) :
    Action :=
  Action.request "POST" "/api/tasks"
    (some (Json.obj [("title", Json.str title),
      ("assigned_user_id", if assigneeVal = "" then Json.null else Json.str assigneeVal),
      ("due_date", jsonOfDue (combineDateTime env dueDateVal dueTimeVal))]))

def deleteTaskReq (id : Nat) : Action := Action.request "DELETE" (taskPath id) none

def deleteUserReq (id : Nat) : Action := Action.request "DELETE" (userPath id) none

/-- toggleComplete (src/static/app.js lines 416-426): PATCH the completed
flag, then await refreshAll; the try/catch turns any rejection - of the
PATCH or of the refresh - into an error toast, so the function itself never
rejects. apiRes is the outcome of the PATCH, r the outcomes of the two
refetches of the refreshAll that runs when the PATCH succeeded. -/
def toggleComplete (st : ClientState) (id : Nat) (done : Bool)
    (apiRes : Except String Json) (r : FetchResults) : ClientState × List Action :=
  match apiRes with
  | .error e => (st, togglePatchReq id done :: toastActs e "error")
  | .ok _ =>
    let rr := refreshAll st r
    match rr.2.2 with
    | .ok _ => (rr.1, togglePatchReq id done :: rr.2.1)
    | .error e => (rr.1, togglePatchReq id done :: rr.2.1 ++ toastActs e "error")

/-- updateAssignee (src/static/app.js lines 428-439): same shape as
toggleComplete with the assigned_user_id payload. -/
def updateAssignee (st : ClientState) (id : Nat) (assigned : String)
    (apiRes : Except String Json) (r : FetchResults) : ClientState × List Action :=
  match apiRes with
  | .error e => (st, assigneePatchReq id assigned :: toastActs e "error")
  | .ok _ =>
    let rr := refreshAll st r
    match rr.2.2 with
    | .ok _ => (rr.1, assigneePatchReq id assigned :: rr.2.1)
    | .error e => (rr.1, assigneePatchReq id assigned :: rr.2.1 ++ toastActs e "error")

/-- updateDueDate (src/static/app.js lines 441-452): combines the two form
fields through combineDateTime and PATCHes the result, then refreshes. -/
def updateDueDate (env : DateEnv) (st : ClientState) (id : Nat)
    (dueInput timeInput : String)
    (apiRes : Except String Json) (r : FetchResults) : ClientState × List Action :=
  match apiRes with
  | .error e => (st, duePatchReq env id dueInput timeInput :: toastActs e "error")
  | .ok _ =>
    let rr := refreshAll st r
    match rr.2.2 with
    | .ok _ => (rr.1, duePatchReq env id dueInput timeInput :: rr.2.1)
    | .error e =>
      (rr.1, duePatchReq env id dueInput timeInput :: rr.2.1 ++ toastActs e "error")

/-- deleteTask (src/static/app.js lines 454-462): DELETE, refresh, then the
deleted chime; failures toast. -/
def deleteTask (st : ClientState) (id : Nat)
    (apiRes : Except String Json) (r : FetchResults) : ClientState × List Action :=
  match apiRes with
  | .error e => (st, deleteTaskReq id :: toastActs e "error")
  | .ok _ =>
    let rr := refreshAll st r
    match rr.2.2 with
    | .ok _ => (rr.1, deleteTaskReq id :: rr.2.1 ++ [Action.chime (toneFor "deleted")])
    | .error e => (rr.1, deleteTaskReq id :: rr.2.1 ++ toastActs e "error")

/-- deleteUser (src/static/app.js lines 464-473): bails out when the confirm
dialog is declined; otherwise DELETE, refresh, and a confirmation toast. -/
def deleteUser (st : ClientState) (id : Nat) (confirmed : Bool)
    (apiRes : Except String Json) (r : FetchResults) : ClientState × List Action :=
  if confirmed = false then (st, [])
  else
    match apiRes with
    | .error e => (st, deleteUserReq id :: toastActs e "error")
    | .ok _ =>
      let rr := refreshAll st r
      match rr.2.2 with
      | .ok _ => (rr.1, deleteUserReq id :: rr.2.1 ++ toastActs "User deleted" "info")
      | .error e => (rr.1, deleteUserReq id :: rr.2.1 ++ toastActs e "error")

/-- createTask (src/static/app.js lines 394-414): trim the title input and
return before doing anything when it is empty; otherwise POST the task,
clear the inputs, refresh, and play the created chime; failures toast. -/
def createTask (env : DateEnv) (st : ClientState)
    (titleRaw assigneeVal dueDateVal dueTimeVal : String)
    (apiRes : Except String Json) (r : FetchResults) : ClientState × List Action :=
  let title := jsTrim titleRaw
  if title = "" then (st, [])
  else
    match apiRes with
    | .error e => (st, createPostReq env title assigneeVal dueDateVal dueTimeVal ::
        toastActs e "error")
    | .ok _ =>
      let rr := refreshAll st r
      match rr.2.2 with
      | .ok _ => (rr.1, createPostReq env title assigneeVal dueDateVal dueTimeVal ::
          Action.clearNewTaskInputs :: rr.2.1 ++ [Action.chime (toneFor "created")])
      | .error e => (rr.1, createPostReq env title assigneeVal dueDateVal dueTimeVal ::
          Action.clearNewTaskInputs :: rr.2.1 ++ toastActs e "error")

/-- An inbound server-sent event: either a named event (the stream names its
keep-alive events ping) or a plain, unnamed message carrying a data string. -/
inductive PushMessage where
  | named (eventType : String) (data : String)
  | plain (data : String)

/-- The default onmessage handler of connectEvents (src/static/app.js lines
542-552): JSON.parse the payload; on success toast data.message, chime by
data.type, maybe raise a platform notification, then call refreshAll (fire
and forget - the refetch outcomes are outside this handler). Any throw inside
the try - the parse failing, or reading .message off a parsed JSON null -
falls to the catch, which only calls refreshAll. -/
def handleDefaultMessage (parse : String → Option Json) (env : BrowserEnv)
    (d : String) : List Action :=
  match parse d with
  | none => [Action.refreshCall]
  | some Json.null => [Action.refreshCall]
  | some data =>
    toastJs (jsField data "message") "info" ++
    [Action.chime (chimeFreqOf (jsField data "type"))] ++
    maybeNotify env (jsField data "message") ++
    [Action.refreshCall]

/-- Dispatch of one inbound event by the connectEvents source (src/static/
app.js lines 540-553): unnamed messages go to onmessage; ping events hit the
registered listener, whose body is empty; other named events have no
listener at all. -/
def handlePush (parse : String → Option Json) (env : BrowserEnv) :
    PushMessage → List Action
  | .named "ping" _ => []
  | .named _ _ => []
  | .plain d => handleDefaultMessage parse env d

/-- The reconnect-relevant state of connectEvents (src/static/app.js lines
540-559): how many connections have been opened, whether the current one is
open, and the delays of the reconnect timers currently pending. -/
structure ChannelState where
  generation : Nat
  connOpen : Bool
  pendingDelays : List Nat
deriving DecidableEq

inductive ChanEvent where
  | connError
  | timerFire

/-- One step of the push-channel life cycle. An error on the live source
(onerror, src/static/app.js lines 554-558) toasts, closes the source, and
schedules connectEvents after 2000 ms; a source that is already closed fires
no further events, so an error event then is a no-op. A pending timer firing
runs connectEvents, which opens a fresh connection. -/
def chanStep (s : ChannelState) (e : ChanEvent) : ChannelState × List Action :=
  match e with
  | .connError =>
    if s.connOpen then
      ({ generation := s.generation, connOpen := false,
         pendingDelays := s.pendingDelays ++ [2000] },
       [Action.toastNote "Connection lost, retrying..." "error",
        Action.closeSource, Action.scheduleReconnect 2000])
    else (s, [])
  | .timerFire =>
    match s.pendingDelays with
    | [] => (s, [])
    | _ :: rest =>
      ({ generation := s.generation + 1, connOpen := true, pendingDelays := rest }, [])

/-- The channel state right after bootstrap first runs connectEvents: one
open connection, no pending timer. -/
def chanInit : ChannelState :=
  { generation := 0, connOpen := true, pendingDelays := [] }

/-- Run the channel machine over a sequence of events, concatenating the
emitted actions. -/
def chanRun : ChannelState → List ChanEvent → ChannelState × List Action
  | s, [] => (s, [])
  | s, e :: rest =>
    let stp := chanStep s e
    let next := chanRun stp.1 rest
    (next.1, stp.2 ++ next.2)

/- Concrete data used by closed counterexamples and witnesses. -/

def uA : UserRec := { id := 1, username := "alice" }

def uB : UserRec := { id := 2, username := "bob" }

def tA : TaskRec :=
  { id := 1, title := "write spec", completed := false,
    assignedUserId := none, dueDate := none }

def stDemo : ClientState := { users := [uA], tasks := [tA] }

/-- Fetch outcomes where the users refetch succeeds and the tasks refetch
fails. -/
def rFail : FetchResults := { usersRes := .ok [uA, uB], tasksRes := .error "boom" }

/-- Fetch outcomes where both refetches succeed. -/
def rOk : FetchResults :=
  { usersRes := .ok [uA, uB],
    tasksRes := .ok [{ tA with completed := true }] }

def bodyEmptyObj : String := "\x7b\x7d"

/-- JSON.parse restricted to the empty-object body. -/
def parseEmptyObj : String → Option Json :=
  fun s => if s = bodyEmptyObj then some (Json.obj []) else none

def bodyErrBoom : String := "\x7b\"error\":\"boom\"\x7d"

/-- JSON.parse restricted to a body carrying a string error field. -/
def parseErrBoom : String → Option Json :=
  fun s => if s = bodyErrBoom then some (Json.obj [("error", Json.str "boom")]) else none

/-- C1 counterexample: refreshAll applied to a state where the users fetch
succeeds with a new list and the tasks fetch fails. The refresh as a whole
fails, yet the users cache has been replaced - so on a failed refresh the
two caches are not both left as they were, contradicting the no-partial-
replacement claim. -/
theorem refreshAll_partial_replacement_cex :
    (refreshAll stDemo rFail).2.2 = Except.error "boom" ∧
    (refreshAll stDemo rFail).1.users = [uA, uB] ∧
    (refreshAll stDemo rFail).1.users ≠ stDemo.users ∧
    (refreshAll stDemo rFail).1.tasks = stDemo.tasks := by
  refine ⟨rfl, rfl, ?_, rfl⟩
  decide

/-- C1 amended: each cache is retained when its own fetch fails and replaced
with the fetched list when its own fetch succeeds, independently of the
other fetch; both caches are swapped when both fetches succeed; and the
refresh as a whole succeeds exactly when both fetches do. (The original
claim is amended only in that a failed refresh still replaces the cache
whose own fetch succeeded - the replacement is per-collection, not atomic
over the pair.) -/
theorem refreshAll_cache_semantics (st : ClientState) (r : FetchResults) :
    (∀ e, r.usersRes = Except.error e → (refreshAll st r).1.users = st.users) ∧
    (∀ e, r.tasksRes = Except.error e → (refreshAll st r).1.tasks = st.tasks) ∧
    (∀ us, r.usersRes = Except.ok us → (refreshAll st r).1.users = us) ∧
    (∀ ts, r.tasksRes = Except.ok ts → (refreshAll st r).1.tasks = ts) ∧
    ((refreshAll st r).2.2 = Except.ok () ↔
      (∃ us, r.usersRes = Except.ok us) ∧ ∃ ts, r.tasksRes = Except.ok ts) := by
  obtain ⟨ur, tr⟩ := r
  cases ur <;> cases tr <;>
    simp [refreshAll, applyRefresh, refreshOutcome]

theorem refreshAll_cache_semantics_witness :
    (refreshAll stDemo rFail).1.tasks = stDemo.tasks :=
  (refreshAll_cache_semantics stDemo rFail).2.1 "boom" rfl

/-- C2 counterexample: a 500 response whose body is valid JSON but carries no
error field rejects with the fixed fallback text, not with the synthesized
status message - the status message is synthesized only when the body fails
to parse as JSON. -/
theorem api_generic_message_cex :
    api parseEmptyObj { ok := false, status := 500, body := bodyEmptyObj } =
      Except.error "Something went wrong." ∧
    ("Something went wrong." : String) ≠ "500 error" :=
  ⟨rfl, by decide⟩

/-- The synthesized status message always ends in the word error, so it can
never coincide with the fixed fallback text. -/
theorem genericMsg_ne_fallback (n : Nat) :
    toString n ++ " error" ≠ "Something went wrong." := by
  intro h
  have hr : "Something went wrong.".data = "Something went ".data ++ "wrong.".data := rfl
  have hd : (toString n).data ++ " error".data =
      "Something went ".data ++ "wrong.".data := by
    rw [← hr]
    exact congrArg String.data h
  have h2 := (List.append_inj' hd (by decide)).2
  exact absurd h2 (by decide)

/-- C2 amended: for a non-2xx response the api helper rejects (a) with the
ToString of the body's error field whenever the body parses as JSON with a
truthy error field - in particular with the string itself for a nonempty
string field; (b) with the synthesized status message when the body does not
parse as JSON, and likewise when it parses to JSON null (whose property
access throws into the same catch); (c) with the fixed fallback text when
the body parses to a non-null value whose error field is absent or falsy;
and (d) conversely, a rejection carrying the synthesized status message can
only arise from an unparseable or JSON-null body, except in the coincidence
that a truthy error field itself stringifies to exactly that text. -/
theorem api_error_message_spec (parse : String → Option Json) (res : HttpResponse)
    (h : res.ok = false) :
    (∀ body v, parse res.body = some body → jsField body "error" = some v →
      jsTruthy v = true → api parse res = Except.error (jsToString v)) ∧
    (∀ body s, parse res.body = some body → jsField body "error" = some (Json.str s) →
      s ≠ "" → api parse res = Except.error s) ∧
    (parse res.body = none →
      api parse res = Except.error (toString res.status ++ " error")) ∧
    (parse res.body = some Json.null →
      api parse res = Except.error (toString res.status ++ " error")) ∧
    (∀ body, parse res.body = some body → body ≠ Json.null →
      (∀ v, jsField body "error" = some v → jsTruthy v = false) →
      api parse res = Except.error "Something went wrong.") ∧
    (api parse res = Except.error (toString res.status ++ " error") →
      parse res.body = none ∨ parse res.body = some Json.null ∨
      ∃ body v, parse res.body = some body ∧ jsField body "error" = some v ∧
        jsTruthy v = true ∧ jsToString v = toString res.status ++ " error") := by
  have hb : api parse res = Except.error (apiErrorMessage res.status (parse res.body)) := by
    simp [api, h]
  have hA : ∀ body v, parse res.body = some body → jsField body "error" = some v →
      jsTruthy v = true → api parse res = Except.error (jsToString v) := by
    intro body v hp hf hv
    rw [hb, hp]
    cases body with
    | null => simp [jsField] at hf
    | bool b => simp [jsField] at hf
    | num n => simp [jsField] at hf
    | str s2 => simp [jsField] at hf
    | arr es => simp [jsField] at hf
    | obj fields => simp [apiErrorMessage, hf, hv]
  refine ⟨hA, ?_, ?_, ?_, ?_, ?_⟩
  · intro body s hp hf hs
    have hv : jsTruthy (Json.str s) = true := by
      simp [jsTruthy]
      exact hs
    have := hA body (Json.str s) hp hf hv
    simpa [jsToString] using this
  · intro hp
    rw [hb, hp]
    rfl
  · intro hp
    rw [hb, hp]
    rfl
  · intro body hp hnull hfal
    rw [hb, hp]
    cases body with
    | null => exact absurd rfl hnull
    | bool b => simp [apiErrorMessage, jsField]
    | num n => simp [apiErrorMessage, jsField]
    | str s2 => simp [apiErrorMessage, jsField]
    | arr es => simp [apiErrorMessage, jsField]
    | obj fields =>
      cases hf : jsField (Json.obj fields) "error" with
      | none => simp [apiErrorMessage, hf]
      | some v => simp [apiErrorMessage, hf, hfal v hf]
  · intro he
    rw [hb] at he
    simp only [Except.error.injEq] at he
    cases hp : parse res.body with
    | none => exact Or.inl rfl
    | some body =>
      rw [hp] at he
      cases body with
      | null => exact Or.inr (Or.inl rfl)
      | bool b =>
        simp [apiErrorMessage, jsField] at he
        exact absurd he.symm (genericMsg_ne_fallback res.status)
      | num n =>
        simp [apiErrorMessage, jsField] at he
        exact absurd he.symm (genericMsg_ne_fallback res.status)
      | str s2 =>
        simp [apiErrorMessage, jsField] at he
        exact absurd he.symm (genericMsg_ne_fallback res.status)
      | arr es =>
        simp [apiErrorMessage, jsField] at he
        exact absurd he.symm (genericMsg_ne_fallback res.status)
      | obj fields =>
        cases hf : jsField (Json.obj fields) "error" with
        | none =>
          simp [apiErrorMessage, hf] at he
          exact absurd he.symm (genericMsg_ne_fallback res.status)
        | some v =>
          cases htv : jsTruthy v with
          | false =>
            simp [apiErrorMessage, hf, htv] at he
            exact absurd he.symm (genericMsg_ne_fallback res.status)
          | true =>
            refine Or.inr (Or.inr ⟨Json.obj fields, v, rfl, hf, htv, ?_⟩)
            simpa [apiErrorMessage, hf, htv] using he

theorem api_error_message_spec_witness :
    api parseErrBoom { ok := false, status := 404, body := bodyErrBoom } =
      Except.error "boom" :=
  (api_error_message_spec parseErrBoom
      { ok := false, status := 404, body := bodyErrBoom } rfl).2.1
    (Json.obj [("error", Json.str "boom")]) "boom" rfl rfl (by decide)

/-- C10: a 2xx response with an empty body resolves to the empty object
instead of raising a JSON parse error. -/
theorem api_empty_body_ok (parse : String → Option Json) (res : HttpResponse)
    (hok : res.ok = true) (hb : res.body = "") :
    api parse res = Except.ok (Json.obj []) := by
  simp [api, hok, hb]

theorem api_empty_body_ok_witness :
    api (fun _ => none) { ok := true, status := 204, body := "" } =
      Except.ok (Json.obj []) :=
  api_empty_body_ok (fun _ => none) { ok := true, status := 204, body := "" } rfl rfl

/-- C7: a push event named ping runs the registered empty listener and
nothing else: no refreshAll call, no toast, no chime, no platform
notification - no action at all, whatever the payload. -/
theorem ping_event_noop (parse : String → Option Json) (env : BrowserEnv)
    (d : String) :
    handlePush parse env (PushMessage.named "ping" d) = [] ∧
    (handlePush parse env (PushMessage.named "ping" d)).countP isRefreshCallAct = 0 ∧
    (handlePush parse env (PushMessage.named "ping" d)).countP isToastAct = 0 ∧
    (handlePush parse env (PushMessage.named "ping" d)).countP isChimeAct = 0 ∧
    (handlePush parse env (PushMessage.named "ping" d)).countP isNotifyAct = 0 :=
  ⟨rfl, rfl, rfl, rfl, rfl⟩

/-- C8: a default (unnamed) push message whose body does not parse as JSON
falls into the catch, which only calls refreshAll: the trace is exactly one
refreshAll call, with zero toasts, chimes and platform notifications. -/
theorem unparseable_push_refreshes_once (parse : String → Option Json)
    (env : BrowserEnv) (d : String) (h : parse d = none) :
    handlePush parse env (PushMessage.plain d) = [Action.refreshCall] ∧
    (handlePush parse env (PushMessage.plain d)).countP isRefreshCallAct = 1 ∧
    (handlePush parse env (PushMessage.plain d)).countP isToastAct = 0 ∧
    (handlePush parse env (PushMessage.plain d)).countP isChimeAct = 0 ∧
    (handlePush parse env (PushMessage.plain d)).countP isNotifyAct = 0 := by
  have hh : handlePush parse env (PushMessage.plain d) = [Action.refreshCall] := by
    simp [handlePush, handleDefaultMessage, h]
  refine ⟨hh, ?_, ?_, ?_, ?_⟩ <;> rw [hh] <;> rfl

theorem unparseable_push_refreshes_once_witness :
    handlePush (fun _ => none)
      { hasNotification := true, permission := "granted", documentHidden := true }
      (PushMessage.plain "not json") = [Action.refreshCall] :=
  (unparseable_push_refreshes_once (fun _ => none)
    { hasNotification := true, permission := "granted", documentHidden := true }
    "not json" rfl).1

/-- Invariant of the channel machine: an open connection has no pending
reconnect timer, and there is never more than one pending timer. -/
def ChanInv (s : ChannelState) : Prop :=
  (s.connOpen = true → s.pendingDelays = []) ∧ s.pendingDelays.length ≤ 1

theorem chanStep_inv (s : ChannelState) (e : ChanEvent) (h : ChanInv s) :
    ChanInv (chanStep s e).1 := by
  obtain ⟨h1, h2⟩ := h
  cases e with
  | connError =>
    by_cases ho : s.connOpen = true
    · have hnil := h1 ho
      simp [chanStep, ho, ChanInv, hnil]
    · simp only [Bool.not_eq_true] at ho
      have hs : (chanStep s ChanEvent.connError).1 = s := by
        simp [chanStep, ho]
      rw [hs]
      exact ⟨h1, h2⟩
  | timerFire =>
    cases hd : s.pendingDelays with
    | nil =>
      have hs : (chanStep s ChanEvent.timerFire).1 = s := by
        simp [chanStep, hd]
      rw [hs]
      exact ⟨h1, h2⟩
    | cons a rest =>
      have : rest = [] := by
        have := h2
        rw [hd] at this
        simpa using this
      simp [chanStep, hd, ChanInv, this]

theorem chanRun_inv (s : ChannelState) (es : List ChanEvent) (h : ChanInv s) :
    ChanInv (chanRun s es).1 := by
  induction es generalizing s with
  | nil => simpa [chanRun] using h
  | cons e rest ih => simpa [chanRun] using ih _ (chanStep_inv s e h)

theorem chanStep_delays (s : ChannelState) (e : ChanEvent) (d : Nat)
    (h : Action.scheduleReconnect d ∈ (chanStep s e).2) : d = 2000 := by
  cases e with
  | connError =>
    by_cases ho : s.connOpen = true
    · simp [chanStep, ho] at h
      exact h
    · simp only [Bool.not_eq_true] at ho
      simp [chanStep, ho] at h
  | timerFire =>
    cases hd : s.pendingDelays <;> simp [chanStep, hd] at h

theorem chanRun_delays (s : ChannelState) (es : List ChanEvent) (d : Nat)
    (h : Action.scheduleReconnect d ∈ (chanRun s es).2) : d = 2000 := by
  induction es generalizing s with
  | nil => simp [chanRun] at h
  | cons e rest ih =>
    simp only [chanRun, List.mem_append] at h
    rcases h with h | h
    · exact chanStep_delays s e d h
    · exact ih _ h

/-- C9: an error on the live push connection toasts, closes the source, and
schedules exactly one reconnect after the fixed 2000 ms delay; a pending
timer firing reopens a fresh connection (so a later error schedules exactly
one further attempt, indefinitely); along every event sequence from the
initial connection there is never more than one pending reconnect, and every
scheduled delay is 2000 ms - no backoff growth and no retry cutoff. -/
theorem reconnect_schedule_spec (s : ChannelState) (es : List ChanEvent)
    (hopen : s.connOpen = true) :
    (chanStep s ChanEvent.connError).2 =
      [Action.toastNote "Connection lost, retrying..." "error",
       Action.closeSource, Action.scheduleReconnect 2000] ∧
    ((chanStep s ChanEvent.connError).2).countP isScheduleAct = 1 ∧
    (chanStep s ChanEvent.connError).1.connOpen = false ∧
    (chanStep s ChanEvent.connError).1.pendingDelays = s.pendingDelays ++ [2000] ∧
    (∀ s' : ChannelState, ∀ a rest, s'.pendingDelays = a :: rest →
      (chanStep s' ChanEvent.timerFire).1.connOpen = true ∧
      (chanStep s' ChanEvent.timerFire).1.pendingDelays = rest) ∧
    ((chanRun chanInit es).1).pendingDelays.length ≤ 1 ∧
    (∀ d, Action.scheduleReconnect d ∈ (chanRun chanInit es).2 → d = 2000) := by
  have hacts : (chanStep s ChanEvent.connError).2 =
      [Action.toastNote "Connection lost, retrying..." "error",
       Action.closeSource, Action.scheduleReconnect 2000] := by
    simp [chanStep, hopen]
  refine ⟨hacts, by rw [hacts]; rfl, by simp [chanStep, hopen],
    by simp [chanStep, hopen], ?_, ?_, ?_⟩
  · intro s' a rest hp
    constructor <;> simp [chanStep, hp]
  · exact (chanRun_inv chanInit es (by simp [chanInit, ChanInv])).2
  · intro d hd
    exact chanRun_delays chanInit es d hd

theorem reconnect_schedule_spec_witness :
    (chanStep chanInit ChanEvent.connError).2.countP isScheduleAct = 1 :=
  (reconnect_schedule_spec chanInit [ChanEvent.connError] rfl).2.1

theorem jsTrim_eq_empty (s : String) (h : ∀ c ∈ s.data, jsWhitespace c = true) :
    jsTrim s = "" := by
  unfold jsTrim
  have h1 : s.data.dropWhile jsWhitespace = [] := by
    rw [List.dropWhile_eq_nil_iff]
    exact h
  rw [h1]
  rfl

/-- C4: createTask with a title input that is empty or whitespace-only trims
it to the empty string and returns at once: the result is the unchanged
cache with an empty trace, so in particular no request of any kind is
issued, whatever the would-be request and refetch outcomes. -/
theorem createTask_blank_title_no_request (env : DateEnv) (st : ClientState)
    (titleRaw aVal dVal tVal : String) (apiRes : Except String Json)
    (r : FetchResults) (h : ∀ c ∈ titleRaw.data, jsWhitespace c = true) :
    createTask env st titleRaw aVal dVal tVal apiRes r = (st, []) ∧
    ((createTask env st titleRaw aVal dVal tVal apiRes r).2).countP isRequestAct = 0 := by
  have ht := jsTrim_eq_empty titleRaw h
  constructor <;> simp [createTask, ht]

/-- The host date facilities instantiated for the concrete witness inputs. -/
def envDemo : DateEnv :=
  { parse := fun s => if s = "2024-03-01T00:00" then some 1709251200000 else none,
    toISO := fun _ => "2024-03-01T00:00:00.000Z" }

theorem createTask_blank_title_no_request_witness :
    createTask envDemo stDemo " \t " "" "" "" (Except.ok (Json.obj [])) rOk =
      (stDemo, []) :=
  (createTask_blank_title_no_request envDemo stDemo " \t " "" "" ""
    (Except.ok (Json.obj [])) rOk (by decide)).1

/-- C6: combineDateTime yields null for an empty date string; with a nonempty
date and empty time it combines the date with the midnight default 00:00 and
returns the ISO string of whatever instant the host parses (null when the
combination is unparseable). Accordingly updateDueDate with date 2024-03-01
and empty time PATCHes the midnight timestamp of that date, and with an
empty date it PATCHes a null due date whatever the time field holds. -/
theorem combineDateTime_spec (env : DateEnv) (st : ClientState) (id : Nat)
    (apiRes : Except String Json) (r : FetchResults) (d t : String)
    (hd : d ≠ "") :
    combineDateTime env "" t = none ∧
    combineDateTime env d "" = Option.map env.toISO (env.parse (d ++ "T" ++ "00:00")) ∧
    (env.parse (d ++ "T" ++ (if t = "" then "00:00" else t)) = none →
      combineDateTime env d t = none) ∧
    ((updateDueDate env st id "2024-03-01" "" apiRes r).2).head? =
      some (Action.request "PATCH" (taskPath id)
        (some (Json.obj [("due_date",
          jsonOfDue (Option.map env.toISO (env.parse "2024-03-01T00:00")))]))) ∧
    ((updateDueDate env st id "" t apiRes r).2).head? =
      some (Action.request "PATCH" (taskPath id)
        (some (Json.obj [("due_date", Json.null)]))) := by
  have hhead : ∀ dIn tIn, ((updateDueDate env st id dIn tIn apiRes r).2).head? =
      some (duePatchReq env id dIn tIn) := by
    intro dIn tIn
    cases apiRes with
    | error e => rfl
    | ok j =>
      simp only [updateDueDate, refreshAll]
      cases refreshOutcome r <;> rfl
  have hmid : ∀ dIn, dIn ≠ "" →
      combineDateTime env dIn "" =
        Option.map env.toISO (env.parse (dIn ++ "T" ++ "00:00")) := by
    intro dIn hdIn
    cases hp : env.parse (dIn ++ "T" ++ "00:00") <;>
      simp [combineDateTime, hdIn, hp]
  refine ⟨rfl, hmid d hd, ?_, ?_, ?_⟩
  · intro hp
    simp [combineDateTime, hd, hp]
  · rw [hhead "2024-03-01" ""]
    simp only [duePatchReq]
    rw [hmid "2024-03-01" (by decide)]
    rfl
  · rw [hhead "" t]
    rfl

theorem combineDateTime_spec_witness :
    combineDateTime envDemo "2024-03-01" "" = some "2024-03-01T00:00:00.000Z" := by
  have h := (combineDateTime_spec envDemo stDemo 1 (Except.ok (Json.obj [])) rOk
    "2024-03-01" "" (by decide)).2.1
  rw [h]
  rfl

/-- C3: each of the six mutations, when its request succeeds, refreshes both
collections before returning: the trace starts with the request just issued
and contains the refreshAll call, and the cache the operation leaves behind
is the one produced by the refetch outcomes of that refreshAll. -/
theorem mutations_refresh_on_success (env : DateEnv) (st : ClientState)
    (r : FetchResults) (id : Nat) (done : Bool)
    (assigned dIn tIn titleRaw aVal dVal tVal : String) (j : Json)
    (ht : jsTrim titleRaw ≠ "") :
    ((toggleComplete st id done (Except.ok j) r).1 = applyRefresh st r ∧
      (toggleComplete st id done (Except.ok j) r).2.head? =
        some (togglePatchReq id done) ∧
      Action.refreshCall ∈ (toggleComplete st id done (Except.ok j) r).2) ∧
    ((updateAssignee st id assigned (Except.ok j) r).1 = applyRefresh st r ∧
      (updateAssignee st id assigned (Except.ok j) r).2.head? =
        some (assigneePatchReq id assigned) ∧
      Action.refreshCall ∈ (updateAssignee st id assigned (Except.ok j) r).2) ∧
    ((updateDueDate env st id dIn tIn (Except.ok j) r).1 = applyRefresh st r ∧
      (updateDueDate env st id dIn tIn (Except.ok j) r).2.head? =
        some (duePatchReq env id dIn tIn) ∧
      Action.refreshCall ∈ (updateDueDate env st id dIn tIn (Except.ok j) r).2) ∧
    ((deleteTask st id (Except.ok j) r).1 = applyRefresh st r ∧
      (deleteTask st id (Except.ok j) r).2.head? = some (deleteTaskReq id) ∧
      Action.refreshCall ∈ (deleteTask st id (Except.ok j) r).2) ∧
    ((deleteUser st id true (Except.ok j) r).1 = applyRefresh st r ∧
      (deleteUser st id true (Except.ok j) r).2.head? = some (deleteUserReq id) ∧
      Action.refreshCall ∈ (deleteUser st id true (Except.ok j) r).2) ∧
    ((createTask env st titleRaw aVal dVal tVal (Except.ok j) r).1 = applyRefresh st r ∧
      (createTask env st titleRaw aVal dVal tVal (Except.ok j) r).2.head? =
        some (createPostReq env (jsTrim titleRaw) aVal dVal tVal) ∧
      Action.refreshCall ∈ (createTask env st titleRaw aVal dVal tVal (Except.ok j) r).2) := by
  cases ho : refreshOutcome r with
  | ok u =>
    refine ⟨⟨?_, ?_, ?_⟩, ⟨?_, ?_, ?_⟩, ⟨?_, ?_, ?_⟩, ⟨?_, ?_, ?_⟩, ⟨?_, ?_, ?_⟩,
      ⟨?_, ?_, ?_⟩⟩ <;>
      simp [toggleComplete, updateAssignee, updateDueDate, deleteTask, deleteUser,
        createTask, refreshAll, ho, ht, toastActs]
  | error e =>
    refine ⟨⟨?_, ?_, ?_⟩, ⟨?_, ?_, ?_⟩, ⟨?_, ?_, ?_⟩, ⟨?_, ?_, ?_⟩, ⟨?_, ?_, ?_⟩,
      ⟨?_, ?_, ?_⟩⟩ <;>
      simp [toggleComplete, updateAssignee, updateDueDate, deleteTask, deleteUser,
        createTask, refreshAll, ho, ht, toastActs]

theorem mutations_refresh_on_success_witness :
    (toggleComplete stDemo 1 true (Except.ok (Json.obj [])) rOk).1 =
      applyRefresh stDemo rOk :=
  ((mutations_refresh_on_success envDemo stDemo rOk 1 true "" "" "" "buy milk"
    "" "" "" (Json.obj []) (by decide)).1).1

def bodyErrArr : String := "\x7b\"error\":[]\x7d"

/-- JSON.parse restricted to a body whose error field is an empty array. -/
def parseErrArr : String → Option Json :=
  fun s => if s = bodyErrArr then some (Json.obj [("error", Json.arr [])]) else none

/-- ToString of the empty array is the empty string (join over no elements). -/
theorem jsToString_arr_nil : jsToString (Json.arr []) = "" := by
  simp [jsToString]
  rfl

/-- C5 counterexample: a failing request whose body carries an empty-array
error field rejects with the empty message (ToString of an empty array is
the empty string), and toggleComplete applied to that rejection leaves the
cache untouched and does not re-throw, but shows no notice at all - its
trace holds the request and zero toasts - falsifying the claim that every
failing mutation shows an error notice. -/
theorem mutation_error_silent_cex :
    api parseErrArr { ok := false, status := 500, body := bodyErrArr } =
      Except.error "" ∧
    toggleComplete stDemo 1 true (Except.error "") rOk =
      (stDemo, [togglePatchReq 1 true]) ∧
    (toggleComplete stDemo 1 true (Except.error "") rOk).2.countP isToastAct = 0 := by
  have h1 : api parseErrArr { ok := false, status := 500, body := bodyErrArr } =
      Except.error (jsToString (Json.arr [])) := rfl
  rw [jsToString_arr_nil] at h1
  exact ⟨h1, rfl, rfl⟩

/-- C5 amended: every mutation whose request fails catches the rejection at
the call site: the caches are left exactly as they were, the operation
returns normally (nothing is re-thrown), and a transient error notice
carrying the rejection message is shown precisely when that message is
nonempty - a truthy error field that stringifies to the empty string, such
as an empty array, produces no notice. -/
theorem mutation_error_path_spec (env : DateEnv) (st : ClientState)
    (r : FetchResults) (id : Nat) (done : Bool)
    (e assigned dIn tIn titleRaw aVal dVal tVal : String)
    (ht : jsTrim titleRaw ≠ "") :
    toggleComplete st id done (Except.error e) r =
      (st, togglePatchReq id done :: toastActs e "error") ∧
    updateAssignee st id assigned (Except.error e) r =
      (st, assigneePatchReq id assigned :: toastActs e "error") ∧
    updateDueDate env st id dIn tIn (Except.error e) r =
      (st, duePatchReq env id dIn tIn :: toastActs e "error") ∧
    deleteTask st id (Except.error e) r =
      (st, deleteTaskReq id :: toastActs e "error") ∧
    deleteUser st id true (Except.error e) r =
      (st, deleteUserReq id :: toastActs e "error") ∧
    createTask env st titleRaw aVal dVal tVal (Except.error e) r =
      (st, createPostReq env (jsTrim titleRaw) aVal dVal tVal ::
        toastActs e "error") ∧
    (e ≠ "" → toastActs e "error" = [Action.toastNote e "error"]) ∧
    toastActs "" "error" = [] := by
  refine ⟨rfl, rfl, rfl, rfl, rfl, ?_, ?_, rfl⟩
  · simp [createTask, ht]
  · intro he
    simp [toastActs, he]

theorem mutation_error_path_spec_witness :
    deleteTask stDemo 2 (Except.error "boom") rOk =
      (stDemo, [deleteTaskReq 2, Action.toastNote "boom" "error"]) := by
  have h := (mutation_error_path_spec envDemo stDemo rOk 2 true "boom" "" "" ""
    "x" "" "" "" (by decide)).2.2.2.1
  rw [h]
  rfl

end ContainerTodo
